import Mathlib

/-!
Verification of the resource-planning service layer.

This file is a shallow embedding of the service layer of the planning
application (directory src/api/app): the SQLAlchemy-backed database is
modelled as lists of records inside a single state structure, string
primary keys are modelled as natural numbers, datetimes that are only
stored (never compared) are modelled as opaque naturals, and each
service method becomes a pure function from the state to an
Except-result, following the Python control flow statement by
statement.  Auto-generated surrogate ids of rows that the services
never query by id (notification log rows, snapshot lines) are omitted
from the corresponding record types.  Fallible operations return
Except ApiError; a raised HTTPException corresponds to an error value
and, because the enclosing transaction rolls back, an error leaves the
state unchanged (errors carry no state in the embedding).
-/

/-- Status of a monthly period (models PeriodStatus in models/core.py;
the Python value "open" is spelled opened because open is reserved). -/
inductive PeriodStatus where
  | opened
  | locked
deriving DecidableEq, Repr

/-- User roles (models UserRole in models/core.py). -/
inductive UserRole where
  | ADMIN
  | FINANCE
  | PM
  | RO
  | DIRECTOR
  | EMPLOYEE
deriving DecidableEq, Repr

/-- Approval instance status (models ApprovalStatus in models/approvals.py). -/
inductive ApprovalStatus where
  | pending
  | approved
  | rejected
deriving DecidableEq, Repr

/-- Approval step status (models StepStatus in models/approvals.py). -/
inductive StepStatus where
  | pending
  | approved
  | rejected
  | skipped
deriving DecidableEq, Repr

/-- Notification phases (models NotificationPhase in models/notifications.py). -/
inductive NotificationPhase where
  | PM_RO
  | Finance
  | Employee
  | RO_Director
deriving DecidableEq, Repr

/-- Notification delivery status (models NotificationStatus in
models/notifications.py). -/
inductive NotificationStatus where
  | pending
  | sent
  | failed
deriving DecidableEq, Repr

/-- A calendar date, as used by the notification scheduler. -/
structure Date where
  year : Nat
  month : Nat
  day : Nat
deriving DecidableEq, Repr

/-- Monthly planning period (models Period in models/core.py). -/
structure Period where
  id : Nat
  tenantId : Nat
  year : Nat
  month : Nat
  status : PeriodStatus
  lockedAt : Option Nat
  lockedBy : Option Nat
  lockReason : Option String
deriving DecidableEq, Repr

/-- Application user (models User in models/core.py; fields the services
never read are omitted). -/
structure User where
  id : Nat
  tenantId : Nat
  objectId : Nat
  email : String
  displayName : String
  role : UserRole
  departmentId : Option Nat
  costCenterId : Option Nat
  isActive : Bool
deriving DecidableEq, Repr

/-- Department (models Department in models/core.py). -/
structure Department where
  id : Nat
  tenantId : Nat
  name : String
deriving DecidableEq, Repr

/-- Cost center (models CostCenter in models/core.py). -/
structure CostCenter where
  id : Nat
  tenantId : Nat
  departmentId : Nat
  name : String
  roUserId : Option Nat
deriving DecidableEq, Repr

/-- Project (models Project in models/core.py). -/
structure Project where
  id : Nat
  tenantId : Nat
  name : String
deriving DecidableEq, Repr

/-- Resource (models Resource in models/core.py). -/
structure Resource where
  id : Nat
  tenantId : Nat
  userId : Option Nat
  costCenterId : Nat
  displayName : String
deriving DecidableEq, Repr

/-- Placeholder resource (models Placeholder in models/core.py). -/
structure Placeholder where
  id : Nat
  tenantId : Nat
  name : String
deriving DecidableEq, Repr

/-- Tenant holiday (models Holiday in models/core.py); the stored
datetime is modelled by its calendar date, which is all the scheduler
compares. -/
structure Holiday where
  id : Nat
  tenantId : Nat
  date : Date
  name : String
deriving DecidableEq, Repr

/-- Demand line (models DemandLine in models/planning.py). -/
structure DemandLine where
  id : Nat
  tenantId : Nat
  periodId : Nat
  projectId : Nat
  resourceId : Option Nat
  placeholderId : Option Nat
  year : Nat
  month : Nat
  ftePercent : Int
  createdBy : Nat
deriving DecidableEq, Repr

/-- Supply line (models SupplyLine in models/planning.py; note the ORM
model has no project column - only the 000009 migration adds one). -/
structure SupplyLine where
  id : Nat
  tenantId : Nat
  periodId : Nat
  resourceId : Nat
  year : Nat
  month : Nat
  ftePercent : Int
  createdBy : Nat
deriving DecidableEq, Repr

/-- Actual line (models ActualLine in models/actuals.py). -/
structure ActualLine where
  id : Nat
  tenantId : Nat
  periodId : Nat
  resourceId : Nat
  projectId : Nat
  year : Nat
  month : Nat
  actualFtePercent : Int
  plannedFtePercent : Option Int
  employeeSignedAt : Option Nat
  employeeSignedBy : Option Nat
  isProxySigned : Bool
  proxySignReason : Option String
  createdBy : Nat
deriving DecidableEq, Repr

/-- Out-of-pool cost line (models OopLine in models/consolidation.py). -/
structure OopLine where
  id : Nat
  tenantId : Nat
  periodId : Nat
  resourceId : Nat
  projectId : Nat
  year : Nat
  month : Nat
  hours : Int
  hourlyRate : Int
  totalCost : Int
  description : Option String
  createdBy : Nat
deriving DecidableEq, Repr

/-- Approval instance (models ApprovalInstance in models/approvals.py). -/
structure ApprovalInstance where
  id : Nat
  tenantId : Nat
  subjectType : String
  subjectId : Nat
  status : ApprovalStatus
  createdBy : Nat
deriving DecidableEq, Repr

/-- Approval step (models ApprovalStep in models/approvals.py). -/
structure ApprovalStep where
  id : Nat
  instanceId : Nat
  stepOrder : Nat
  stepName : String
  approverId : Option Nat
  status : StepStatus
  actionedAt : Option Nat
  actionedBy : Option Nat
  comment : Option String
deriving DecidableEq, Repr

/-- Approval audit action (models ApprovalAction in models/approvals.py). -/
structure ApprovalAction where
  id : Nat
  tenantId : Nat
  instanceId : Nat
  stepId : Option Nat
  action : String
  performedBy : Nat
  comment : Option String
deriving DecidableEq, Repr

/-- Notification log row (models NotificationLog in
models/notifications.py; the uuid primary key, which no service reads,
is omitted). -/
structure NotificationLog where
  tenantId : Nat
  phase : NotificationPhase
  year : Nat
  month : Nat
  recipientUserId : Nat
  recipientEmail : String
  status : NotificationStatus
  message : String
  runId : Nat
  sentAt : Option Nat
deriving DecidableEq, Repr

/-- Published snapshot header (models PublishSnapshot in
models/consolidation.py). -/
structure PublishSnapshot where
  id : Nat
  tenantId : Nat
  periodId : Nat
  name : String
  description : Option String
  publishedBy : Nat
deriving DecidableEq, Repr

/-- Published snapshot line (models PublishSnapshotLine in
models/consolidation.py; the uuid primary key, which no service reads,
is omitted). -/
structure PublishSnapshotLine where
  snapshotId : Nat
  lineType : String
  projectId : Option Nat
  projectName : Option String
  resourceId : Option Nat
  resourceName : Option String
  placeholderId : Option Nat
  placeholderName : Option String
  year : Nat
  month : Nat
  ftePercent : Option Int
  hours : Option Int
  cost : Option Int
deriving DecidableEq, Repr

/-- The database state: one list per table, in insertion order, so that
the ORM first() call corresponds to List.find?. -/
structure Db where
  periods : List Period
  users : List User
  departments : List Department
  costCenters : List CostCenter
  projects : List Project
  resources : List Resource
  placeholders : List Placeholder
  holidays : List Holiday
  demands : List DemandLine
  supplies : List SupplyLine
  actuals : List ActualLine
  oops : List OopLine
  approvalInstances : List ApprovalInstance
  approvalSteps : List ApprovalStep
  approvalActions : List ApprovalAction
  notificationLogs : List NotificationLog
  snapshots : List PublishSnapshot
  snapshotLines : List PublishSnapshotLine
deriving DecidableEq, Repr

/-- The authenticated caller (models CurrentUser in auth/dependencies.py). -/
structure CurrentUser where
  tenantId : Nat
  objectId : Nat
  role : UserRole
deriving DecidableEq, Repr

/-- Typed service errors: each constructor corresponds to one of the
HTTPException payloads raised by the services (schemas/common.py error
codes).  The actualsOver100 constructor carries the structured context
the Python detail dict carries. -/
inductive ApiError where
  | notFound
  | periodLocked
  | fteInvalid
  | conflict
  | validationError
  | demandXor
  | placeholderBlocked4mfc
  | unauthorizedRole
  | actualsOver100 (totalPercent : Int) (resourceId : Nat) (year : Nat) (month : Nat)
      (offendingLineIds : List Nat)
deriving DecidableEq, Repr

/-- Lookup of a period by tenant, year and month
(PeriodService.get_by_year_month and the inline queries of the other
services). -/
def findPeriod (db : Db) (tenantId year month : Nat) : Option Period :=
  db.periods.find? fun p =>
    p.tenantId == tenantId && p.year == year && p.month == month

/-- Shared period gate of the planning and actuals services
(DemandService._check_period_open, SupplyService._check_period_open and
ActualsService._check_period_open are identical): 404 when the period
does not exist, PERIOD_LOCKED when it is locked, otherwise the period. -/
def check_period_open (db : Db) (tenantId year month : Nat) : Except ApiError Period :=
  match findPeriod db tenantId year month with
  | none => .error .notFound
  | some p => if p.status == .locked then .error .periodLocked else .ok p

/-- PeriodService.require_open: raises PERIOD_LOCKED when the period
exists and is locked; any other situation (including a missing period)
passes silently. -/
def require_open (db : Db) (tenantId year month : Nat) : Except ApiError Unit :=
  match findPeriod db tenantId year month with
  | some p => if p.status == .locked then .error .periodLocked else .ok ()
  | none => .ok ()

/-- Python str.strip as used for unlock reasons and proxy-sign
reasons: whitespace removed from both ends (an executable model of the
library trim). -/
def strTrim (s : String) : String :=
  String.mk (((s.data.dropWhile fun c => c.isWhitespace).reverse.dropWhile
    fun c => c.isWhitespace).reverse)

/-- PeriodService.lock: 404 when missing, VALIDATION_ERROR when already
locked, otherwise transitions to locked recording who locked and when
and clearing the lock reason. -/
def period_lock (db : Db) (u : CurrentUser) (periodId now : Nat) :
    Except ApiError (Db × Period) :=
  match db.periods.find? fun p => p.id == periodId && p.tenantId == u.tenantId with
  | none => .error .notFound
  | some p =>
    if p.status == .locked then .error .validationError
    else
      let p' : Period :=
        { p with status := .locked, lockedAt := some now, lockedBy := some u.objectId,
                 lockReason := none }
      let db' := { db with periods := db.periods.map fun q => if q.id == p.id then p' else q }
      .ok (db', p')

/-- PeriodService.unlock: requires a non-blank reason, 404 when missing,
VALIDATION_ERROR when already open, otherwise reopens keeping the lock
metadata and storing the unlock reason. -/
def period_unlock (db : Db) (u : CurrentUser) (periodId : Nat) (reason : String) :
    Except ApiError (Db × Period) :=
  if (strTrim reason == "") then .error .validationError
  else
    match db.periods.find? fun p => p.id == periodId && p.tenantId == u.tenantId with
    | none => .error .notFound
    | some p =>
      if p.status == .opened then .error .validationError
      else
        let p' : Period := { p with status := .opened, lockReason := some (strTrim reason) }
        let db' := { db with periods := db.periods.map fun q => if q.id == p.id then p' else q }
        .ok (db', p')

/-- An empty database, used in concrete counterexamples. -/
def emptyDb : Db :=
  { periods := [], users := [], departments := [], costCenters := [], projects := []
  , resources := [], placeholders := [], holidays := [], demands := [], supplies := []
  , actuals := [], oops := [], approvalInstances := [], approvalSteps := []
  , approvalActions := [], notificationLogs := [], snapshots := [], snapshotLines := [] }

/-- The helper get_4mfc_boundary in services/planning.py: the year and
month of now plus four calendar months (relativedelta(months=4) shifts
the month index by four; its day clamping never changes the resulting
year or month), i.e. the first month in which placeholders are allowed. -/
def get_4mfc_boundary (now : Date) : Nat × Nat :=
  let monthIndex := now.year * 12 + (now.month - 1) + 4
  (monthIndex / 12, monthIndex % 12 + 1)

/-- The helper is_within_4mfc in services/planning.py: compares the
target month index year*12+month against the boundary month index. -/
def is_within_4mfc (now : Date) (year month : Nat) : Bool :=
  let boundary := get_4mfc_boundary now
  year * 12 + month < boundary.1 * 12 + boundary.2

/-- The FTE range test used by the demand and supply services:
the value must lie in [5,100] and be a multiple of five (the Python
test is for invalidity; this is its negation). -/
def fteValid (f : Int) : Bool :=
  !(f < 5 || f > 100 || f % 5 != 0)

/-- The FTE range test of the actuals service, which additionally
accepts exactly zero. -/
def fteValidActual (f : Int) : Bool :=
  !(f != 0 && (f < 5 || f > 100 || f % 5 != 0))

/-- DemandService.create: period gate, resource/placeholder XOR, the
4MFC placeholder window, FTE range, existence of the referenced
project/resource/placeholder, duplicate check, then insertion.  The
wall-clock now of is_within_4mfc and the generated uuid are passed as
parameters. -/
def demand_create (db : Db) (u : CurrentUser) (now : Date)
    (projectId year month : Nat) (ftePercent : Int)
    (resourceId placeholderId : Option Nat) (newId : Nat) :
    Except ApiError (Db × DemandLine) :=
  match check_period_open db u.tenantId year month with
  | .error e => .error e
  | .ok period =>
  if resourceId.isSome && placeholderId.isSome then .error .demandXor
  else if !resourceId.isSome && !placeholderId.isSome then .error .demandXor
  else if placeholderId.isSome && is_within_4mfc now year month then
    .error .placeholderBlocked4mfc
  else if !fteValid ftePercent then .error .fteInvalid
  else
  match db.projects.find? fun p => p.id == projectId && p.tenantId == u.tenantId with
  | none => .error .notFound
  | some _ =>
  if resourceId.isSome &&
      !(db.resources.find? fun r =>
          some r.id == resourceId && r.tenantId == u.tenantId).isSome then
    .error .notFound
  else if placeholderId.isSome &&
      !(db.placeholders.find? fun p =>
          some p.id == placeholderId && p.tenantId == u.tenantId).isSome then
    .error .notFound
  else
    let existing : Option DemandLine :=
      match resourceId with
      | some rid =>
        db.demands.find? fun d =>
          d.tenantId == u.tenantId && d.projectId == projectId &&
          d.year == year && d.month == month && d.resourceId == some rid
      | none =>
        db.demands.find? fun d =>
          d.tenantId == u.tenantId && d.projectId == projectId &&
          d.year == year && d.month == month && d.placeholderId == placeholderId
    if existing.isSome then .error .conflict
    else
      let demand : DemandLine :=
        { id := newId, tenantId := u.tenantId, periodId := period.id
        , projectId := projectId, resourceId := resourceId
        , placeholderId := placeholderId, year := year, month := month
        , ftePercent := ftePercent, createdBy := u.objectId }
      .ok ({ db with demands := db.demands ++ [demand] }, demand)

/-- DemandService.get_by_id: lookup by id within the caller's tenant. -/
def demand_get_by_id (db : Db) (u : CurrentUser) (demandId : Nat) : Option DemandLine :=
  db.demands.find? fun d => d.id == demandId && d.tenantId == u.tenantId

/-- DemandService.update: 404, period gate on the line's own month,
FTE range, then overwrite of fte_percent. -/
def demand_update (db : Db) (u : CurrentUser) (demandId : Nat) (ftePercent : Int) :
    Except ApiError (Db × DemandLine) :=
  match demand_get_by_id db u demandId with
  | none => .error .notFound
  | some demand =>
  match check_period_open db u.tenantId demand.year demand.month with
  | .error e => .error e
  | .ok _ =>
  if !fteValid ftePercent then .error .fteInvalid
  else
    let demand' := { demand with ftePercent := ftePercent }
    .ok ({ db with demands := db.demands.map fun d => if d.id == demand.id then demand' else d }
        , demand')

/-- DemandService.delete: 404, period gate on the line's own month,
then removal. -/
def demand_delete (db : Db) (u : CurrentUser) (demandId : Nat) :
    Except ApiError Db :=
  match demand_get_by_id db u demandId with
  | none => .error .notFound
  | some demand =>
  match check_period_open db u.tenantId demand.year demand.month with
  | .error e => .error e
  | .ok _ => .ok { db with demands := db.demands.filter fun d => !(d.id == demand.id) }

/-- SupplyService.create: period gate, FTE range, resource existence,
then a duplicate check keyed on (tenant, resource, year, month) only -
the service takes no project argument even though the HTTP schema,
router and migration 20260211_000009 all carry an optional project. -/
def supply_create (db : Db) (u : CurrentUser)
    (resourceId year month : Nat) (ftePercent : Int) (newId : Nat) :
    Except ApiError (Db × SupplyLine) :=
  match check_period_open db u.tenantId year month with
  | .error e => .error e
  | .ok period =>
  if !fteValid ftePercent then .error .fteInvalid
  else
  match db.resources.find? fun r => r.id == resourceId && r.tenantId == u.tenantId with
  | none => .error .notFound
  | some _ =>
    let existing := db.supplies.find? fun s =>
      s.tenantId == u.tenantId && s.resourceId == resourceId &&
      s.year == year && s.month == month
    if existing.isSome then .error .conflict
    else
      let supply : SupplyLine :=
        { id := newId, tenantId := u.tenantId, periodId := period.id
        , resourceId := resourceId, year := year, month := month
        , ftePercent := ftePercent, createdBy := u.objectId }
      .ok ({ db with supplies := db.supplies ++ [supply] }, supply)

/-- SupplyService.get_by_id. -/
def supply_get_by_id (db : Db) (u : CurrentUser) (supplyId : Nat) : Option SupplyLine :=
  db.supplies.find? fun s => s.id == supplyId && s.tenantId == u.tenantId

/-- SupplyService.update: 404, period gate on the line's own month,
FTE range, then overwrite of fte_percent. -/
def supply_update (db : Db) (u : CurrentUser) (supplyId : Nat) (ftePercent : Int) :
    Except ApiError (Db × SupplyLine) :=
  match supply_get_by_id db u supplyId with
  | none => .error .notFound
  | some supply =>
  match check_period_open db u.tenantId supply.year supply.month with
  | .error e => .error e
  | .ok _ =>
  if !fteValid ftePercent then .error .fteInvalid
  else
    let supply' := { supply with ftePercent := ftePercent }
    .ok ({ db with supplies := db.supplies.map fun s => if s.id == supply.id then supply' else s }
        , supply')

/-- SupplyService.delete: 404, period gate on the line's own month,
then removal. -/
def supply_delete (db : Db) (u : CurrentUser) (supplyId : Nat) :
    Except ApiError Db :=
  match supply_get_by_id db u supplyId with
  | none => .error .notFound
  | some supply =>
  match check_period_open db u.tenantId supply.year supply.month with
  | .error e => .error e
  | .ok _ => .ok { db with supplies := db.supplies.filter fun s => !(s.id == supply.id) }

/-- The actual lines of a resource in a month, optionally excluding one
line: the query inside ActualsService._check_100_percent_limit
(an exclude_line_id of None applies no exclusion filter). -/
def actualsLinesFor (db : Db) (tenantId resourceId year month : Nat)
    (excludeLineId : Option Nat) : List ActualLine :=
  db.actuals.filter fun l =>
    l.tenantId == tenantId && l.resourceId == resourceId &&
    l.year == year && l.month == month &&
    (match excludeLineId with
     | some eid => l.id != eid
     | none => true)

/-- The existing total those lines sum to. -/
def actualsTotalFor (db : Db) (tenantId resourceId year month : Nat)
    (excludeLineId : Option Nat) : Int :=
  ((actualsLinesFor db tenantId resourceId year month excludeLineId).map
    fun l => l.actualFtePercent).sum

/-- ActualsService._check_100_percent_limit: sums the resource's actual
lines for the month (excluding the given line when set) and fails with
ACTUALS_OVER_100 - carrying the resulting total and the ids of the
existing lines - when the new total strictly exceeds 100. -/
def check_100_percent_limit (db : Db) (u : CurrentUser)
    (resourceId year month : Nat) (newFte : Int) (excludeLineId : Option Nat) :
    Except ApiError Unit :=
  let existingLines := actualsLinesFor db u.tenantId resourceId year month excludeLineId
  let newTotal := ((existingLines.map fun l => l.actualFtePercent).sum) + newFte
  if newTotal > 100 then
    .error (.actualsOver100 newTotal resourceId year month (existingLines.map fun l => l.id))
  else .ok ()

/-- ActualsService.get_by_id. -/
def actuals_get_by_id (db : Db) (u : CurrentUser) (actualId : Nat) : Option ActualLine :=
  db.actuals.find? fun a => a.id == actualId && a.tenantId == u.tenantId

/-- ActualsService.create: period gate, FTE range (zero allowed),
resource and project existence, duplicate check on
(tenant, resource, project, year, month), the 100 percent cap, then
insertion. -/
def actuals_create (db : Db) (u : CurrentUser)
    (resourceId projectId year month : Nat) (actualFtePercent : Int)
    (plannedFtePercent : Option Int) (newId : Nat) :
    Except ApiError (Db × ActualLine) :=
  match check_period_open db u.tenantId year month with
  | .error e => .error e
  | .ok period =>
  if !fteValidActual actualFtePercent then .error .fteInvalid
  else
  match db.resources.find? fun r => r.id == resourceId && r.tenantId == u.tenantId with
  | none => .error .notFound
  | some _ =>
  match db.projects.find? fun p => p.id == projectId && p.tenantId == u.tenantId with
  | none => .error .notFound
  | some _ =>
    let existing : Option ActualLine := db.actuals.find? fun a =>
      a.tenantId == u.tenantId && a.resourceId == resourceId &&
      a.projectId == projectId && a.year == year && a.month == month
    if existing.isSome then .error .conflict
    else
      match check_100_percent_limit db u resourceId year month actualFtePercent none with
      | .error e => .error e
      | .ok _ =>
        let actual : ActualLine :=
          { id := newId, tenantId := u.tenantId, periodId := period.id
          , resourceId := resourceId, projectId := projectId
          , year := year, month := month
          , actualFtePercent := actualFtePercent
          , plannedFtePercent := plannedFtePercent
          , employeeSignedAt := none, employeeSignedBy := none
          , isProxySigned := false, proxySignReason := none
          , createdBy := u.objectId }
        .ok ({ db with actuals := db.actuals ++ [actual] }, actual)

/-- ActualsService.update: 404, immutability of signed lines, period
gate on the line's own month, FTE range, the 100 percent cap excluding
the line being changed, then overwrite of actual_fte_percent. -/
def actuals_update (db : Db) (u : CurrentUser) (actualId : Nat)
    (actualFtePercent : Int) : Except ApiError (Db × ActualLine) :=
  match actuals_get_by_id db u actualId with
  | none => .error .notFound
  | some actual =>
  if actual.employeeSignedAt.isSome then .error .validationError
  else
  match check_period_open db u.tenantId actual.year actual.month with
  | .error e => .error e
  | .ok _ =>
  if !fteValidActual actualFtePercent then .error .fteInvalid
  else
  match check_100_percent_limit db u actual.resourceId actual.year actual.month
      actualFtePercent (some actual.id) with
  | .error e => .error e
  | .ok _ =>
    let actual' := { actual with actualFtePercent := actualFtePercent }
    .ok ({ db with actuals := db.actuals.map fun a => if a.id == actual.id then actual' else a }
        , actual')

/-- ActualsService.delete: 404, immutability of signed lines, period
gate on the line's own month, then removal. -/
def actuals_delete (db : Db) (u : CurrentUser) (actualId : Nat) :
    Except ApiError Db :=
  match actuals_get_by_id db u actualId with
  | none => .error .notFound
  | some actual =>
  if actual.employeeSignedAt.isSome then .error .validationError
  else
  match check_period_open db u.tenantId actual.year actual.month with
  | .error e => .error e
  | .ok _ => .ok { db with actuals := db.actuals.filter fun a => !(a.id == actual.id) }

/-- ApprovalsService._can_user_action_step: with an explicit approver
set, only that approver may act; without one, a holder of the step's
named role (RO or Director) may act. -/
def can_user_action_step (user : User) (step : ApprovalStep) : Bool :=
  match step.approverId with
  | some approverId => approverId == user.id
  | none =>
    if step.stepName == "RO" then user.role == .RO
    else if step.stepName == "Director" then user.role == .DIRECTOR
    else false

/-- The approver-resolution block of
ApprovalsService.create_approval_for_actuals (lines 42-60): the RO is
the resource's cost-center owner; the Director is the first user of the
cost-center's department holding the Director role. -/
def resolve_approvers (db : Db) (u : CurrentUser) (resource : Resource) :
    Option Nat × Option Nat :=
  match db.costCenters.find? fun c => c.id == resource.costCenterId with
  | none => (none, none)
  | some cc =>
    let director : Option Nat :=
      match db.departments.find? fun d => d.id == cc.departmentId with
      | none => none
      | some _ =>
        (db.users.find? fun usr =>
          usr.tenantId == u.tenantId && usr.departmentId == some cc.departmentId &&
          usr.role == UserRole.DIRECTOR).map fun usr => usr.id
    (cc.roUserId, director)

/-- ApprovalsService.create_approval_for_actuals: resolves the RO and
Director approvers, creates a pending instance with an RO step of order
one and a Director step of order two; the Director step is created
already skipped when both approvers resolved to the same non-null user.
The three generated uuids are modelled as freshId, freshId+1 and
freshId+2. -/
def create_approval_for_actuals (db : Db) (u : CurrentUser)
    (actual : ActualLine) (freshId : Nat) :
    Except ApiError (Db × ApprovalInstance) :=
  match db.resources.find? fun r => r.id == actual.resourceId with
  | none => .error .notFound
  | some resource =>
    let resolved := resolve_approvers db u resource
    let roUserId := resolved.1
    let directorUserId := resolved.2
    let inst : ApprovalInstance :=
      { id := freshId, tenantId := u.tenantId, subjectType := "actuals"
      , subjectId := actual.id, status := .pending, createdBy := u.objectId }
    let roStep : ApprovalStep :=
      { id := freshId + 1, instanceId := freshId, stepOrder := 1, stepName := "RO"
      , approverId := roUserId, status := .pending
      , actionedAt := none, actionedBy := none, comment := none }
    let skipDirector := roUserId == directorUserId && roUserId.isSome
    let directorStep : ApprovalStep :=
      { id := freshId + 2, instanceId := freshId, stepOrder := 2, stepName := "Director"
      , approverId := directorUserId
      , status := if skipDirector then .skipped else .pending
      , actionedAt := none, actionedBy := none, comment := none }
    .ok ({ db with
            approvalInstances := db.approvalInstances ++ [inst],
            approvalSteps := db.approvalSteps ++ [roStep, directorStep] }
        , inst)

/-- ActualsService._ensure_approval_instance: a no-op when an instance
already exists for the signed line, otherwise delegates to
create_approval_for_actuals. -/
def ensure_approval_instance (db : Db) (u : CurrentUser)
    (actual : ActualLine) (freshId : Nat) : Except ApiError Db :=
  match db.approvalInstances.find? fun i =>
      i.tenantId == u.tenantId && i.subjectType == "actuals" && i.subjectId == actual.id with
  | some _ => .ok db
  | none =>
    match create_approval_for_actuals db u actual freshId with
    | .error e => .error e
    | .ok (db', _) => .ok db'

/-- ActualsService.sign: 404, already-signed check, period gate on the
line's own month, then marks the line signed and ensures the approval
instance. -/
def actuals_sign (db : Db) (u : CurrentUser) (actualId freshId now : Nat) :
    Except ApiError (Db × ActualLine) :=
  match actuals_get_by_id db u actualId with
  | none => .error .notFound
  | some actual =>
  if actual.employeeSignedAt.isSome then .error .validationError
  else
  match check_period_open db u.tenantId actual.year actual.month with
  | .error e => .error e
  | .ok _ =>
    let actual' := { actual with
                      employeeSignedAt := some now,
                      employeeSignedBy := some u.objectId, isProxySigned := false }
    let db1 := { db with actuals := db.actuals.map fun a => if a.id == actual.id then actual' else a }
    match ensure_approval_instance db1 u actual' freshId with
    | .error e => .error e
    | .ok db2 => .ok (db2, actual')

/-- ActualsService.proxy_sign: 404, already-signed check, non-blank
reason check, then marks the line proxy-signed and ensures the approval
instance.  Unlike create, update, delete and sign, this method performs
no period-open check. -/
def actuals_proxy_sign (db : Db) (u : CurrentUser) (actualId : Nat)
    (reason : String) (freshId now : Nat) : Except ApiError (Db × ActualLine) :=
  match actuals_get_by_id db u actualId with
  | none => .error .notFound
  | some actual =>
  if actual.employeeSignedAt.isSome then .error .validationError
  else if strTrim reason == "" then .error .validationError
  else
    let actual' := { actual with
                      employeeSignedAt := some now,
                      employeeSignedBy := some u.objectId, isProxySigned := true,
                      proxySignReason := some (strTrim reason) }
    let db1 := { db with actuals := db.actuals.map fun a => if a.id == actual.id then actual' else a }
    match ensure_approval_instance db1 u actual' freshId with
    | .error e => .error e
    | .ok db2 => .ok (db2, actual')

/-- ApprovalsService._get_user: the caller's User row. -/
def approvals_get_user (db : Db) (u : CurrentUser) : Option User :=
  db.users.find? fun usr => usr.tenantId == u.tenantId && usr.objectId == u.objectId

/-- The steps belonging to an instance (the ORM steps relationship). -/
def steps_of (db : Db) (instanceId : Nat) : List ApprovalStep :=
  db.approvalSteps.filter fun s => s.instanceId == instanceId

/-- Stable insertion by step order (models the stable Python sorted). -/
def insertByOrder (s : ApprovalStep) : List ApprovalStep → List ApprovalStep
  | [] => [s]
  | t :: ts => if s.stepOrder ≤ t.stepOrder then s :: t :: ts else t :: insertByOrder s ts

/-- Stable sort of steps by step order. -/
def sortByOrder : List ApprovalStep → List ApprovalStep
  | [] => []
  | s :: ss => insertByOrder s (sortByOrder ss)

/-- ApprovalsService._get_current_step: the first pending step in step
order. -/
def get_current_step (db : Db) (instanceId : Nat) : Option ApprovalStep :=
  (sortByOrder (steps_of db instanceId)).find? fun s => s.status == .pending

/-- ApprovalsService.approve_step: 404 for instance or step, pending
check, authorization (the caller's user row must exist and be allowed
to act on the step), current-step check, then marks the step approved,
appends an audit action, and promotes the instance to approved when
every step is approved or skipped. -/
def approve_step (db : Db) (u : CurrentUser) (instanceId stepId : Nat)
    (comment : Option String) (actionId now : Nat) :
    Except ApiError (Db × ApprovalInstance) :=
  match db.approvalInstances.find? fun i => i.id == instanceId && i.tenantId == u.tenantId with
  | none => .error .notFound
  | some inst =>
  match db.approvalSteps.find? fun s => s.id == stepId && s.instanceId == instanceId with
  | none => .error .notFound
  | some step =>
  if step.status != .pending then .error .validationError
  else
  match approvals_get_user db u with
  | none => .error .unauthorizedRole
  | some user =>
  if !can_user_action_step user step then .error .unauthorizedRole
  else
  match get_current_step db instanceId with
  | none => .error .validationError
  | some currentStep =>
  if currentStep.id != step.id then .error .validationError
  else
    let step' := { step with
                    status := StepStatus.approved, actionedAt := some now,
                    actionedBy := some u.objectId, comment := comment }
    let db1 := { db with approvalSteps :=
      db.approvalSteps.map fun (s : ApprovalStep) => if s.id == step.id then step' else s }
    let act : ApprovalAction :=
      { id := actionId, tenantId := u.tenantId, instanceId := instanceId
      , stepId := some stepId, action := "approve", performedBy := u.objectId
      , comment := comment }
    let db2 := { db1 with approvalActions := db1.approvalActions ++ [act] }
    let allDone := (steps_of db2 instanceId).all fun s =>
      s.status == .approved || s.status == .skipped
    let inst' := if allDone then { inst with status := ApprovalStatus.approved } else inst
    let db3 := { db2 with approvalInstances :=
      db2.approvalInstances.map fun (i : ApprovalInstance) => if i.id == inst.id then inst' else i }
    .ok (db3, inst')

/-- ApprovalsService.reject_step: same gates as approve_step, then
marks the step rejected, sets the instance rejected immediately, and
appends an audit action. -/
def reject_step (db : Db) (u : CurrentUser) (instanceId stepId : Nat)
    (comment : Option String) (actionId now : Nat) :
    Except ApiError (Db × ApprovalInstance) :=
  match db.approvalInstances.find? fun i => i.id == instanceId && i.tenantId == u.tenantId with
  | none => .error .notFound
  | some inst =>
  match db.approvalSteps.find? fun s => s.id == stepId && s.instanceId == instanceId with
  | none => .error .notFound
  | some step =>
  if step.status != .pending then .error .validationError
  else
  match approvals_get_user db u with
  | none => .error .unauthorizedRole
  | some user =>
  if !can_user_action_step user step then .error .unauthorizedRole
  else
  match get_current_step db instanceId with
  | none => .error .validationError
  | some currentStep =>
  if currentStep.id != step.id then .error .validationError
  else
    let step' := { step with
                    status := StepStatus.rejected, actionedAt := some now,
                    actionedBy := some u.objectId, comment := comment }
    let db1 := { db with approvalSteps :=
      db.approvalSteps.map fun (s : ApprovalStep) => if s.id == step.id then step' else s }
    let inst' := { inst with status := ApprovalStatus.rejected }
    let db2 := { db1 with approvalInstances :=
      db1.approvalInstances.map fun (i : ApprovalInstance) => if i.id == inst.id then inst' else i }
    let act : ApprovalAction :=
      { id := actionId, tenantId := u.tenantId, instanceId := instanceId
      , stepId := some stepId, action := "reject", performedBy := u.objectId
      , comment := comment }
    .ok ({ db2 with approvalActions := db2.approvalActions ++ [act] }, inst')

/-- The demand-line copy step of ConsolidationService.publish_snapshot:
a denormalized snapshot line embedding the resolved project, resource
and placeholder names. -/
def demandSnapshotLine (db : Db) (u : CurrentUser) (snapId : Nat) (d : DemandLine) :
    PublishSnapshotLine :=
  let project := db.projects.find? fun p => p.id == d.projectId && p.tenantId == u.tenantId
  let resource : Option Resource :=
    match d.resourceId with
    | some rid => db.resources.find? fun r => r.id == rid && r.tenantId == u.tenantId
    | none => none
  let placeholder : Option Placeholder :=
    match d.placeholderId with
    | some pid => db.placeholders.find? fun p => p.id == pid && p.tenantId == u.tenantId
    | none => none
  { snapshotId := snapId, lineType := "demand"
  , projectId := some d.projectId, projectName := project.map fun p => p.name
  , resourceId := d.resourceId, resourceName := resource.map fun r => r.displayName
  , placeholderId := d.placeholderId, placeholderName := placeholder.map fun p => p.name
  , year := d.year, month := d.month, ftePercent := some d.ftePercent
  , hours := none, cost := none }

/-- The supply-line copy step of ConsolidationService.publish_snapshot. -/
def supplySnapshotLine (db : Db) (u : CurrentUser) (snapId : Nat) (s : SupplyLine) :
    PublishSnapshotLine :=
  let resource := db.resources.find? fun r => r.id == s.resourceId && r.tenantId == u.tenantId
  { snapshotId := snapId, lineType := "supply"
  , projectId := none, projectName := none
  , resourceId := some s.resourceId, resourceName := resource.map fun r => r.displayName
  , placeholderId := none, placeholderName := none
  , year := s.year, month := s.month, ftePercent := some s.ftePercent
  , hours := none, cost := none }

/-- The actual-line copy step of ConsolidationService.publish_snapshot. -/
def actualSnapshotLine (db : Db) (u : CurrentUser) (snapId : Nat) (a : ActualLine) :
    PublishSnapshotLine :=
  let project := db.projects.find? fun p => p.id == a.projectId && p.tenantId == u.tenantId
  let resource := db.resources.find? fun r => r.id == a.resourceId && r.tenantId == u.tenantId
  { snapshotId := snapId, lineType := "actual"
  , projectId := some a.projectId, projectName := project.map fun p => p.name
  , resourceId := some a.resourceId, resourceName := resource.map fun r => r.displayName
  , placeholderId := none, placeholderName := none
  , year := a.year, month := a.month, ftePercent := some a.actualFtePercent
  , hours := none, cost := none }

/-- The OoP-line copy step of ConsolidationService.publish_snapshot. -/
def oopSnapshotLine (db : Db) (u : CurrentUser) (snapId : Nat) (o : OopLine) :
    PublishSnapshotLine :=
  let project := db.projects.find? fun p => p.id == o.projectId && p.tenantId == u.tenantId
  let resource := db.resources.find? fun r => r.id == o.resourceId && r.tenantId == u.tenantId
  { snapshotId := snapId, lineType := "oop"
  , projectId := some o.projectId, projectName := project.map fun p => p.name
  , resourceId := some o.resourceId, resourceName := resource.map fun r => r.displayName
  , placeholderId := none, placeholderName := none
  , year := o.year, month := o.month, ftePercent := none
  , hours := some o.hours, cost := some o.totalCost }

/-- ConsolidationService.publish_snapshot: requires the period to exist
(being locked is not required), then atomically copies every demand,
supply, actual and OoP line of the period into denormalized snapshot
lines.  The generated snapshot uuid is the snapId parameter. -/
def publish_snapshot (db : Db) (u : CurrentUser) (periodId : Nat)
    (name : String) (description : Option String) (snapId : Nat) :
    Except ApiError (Db × PublishSnapshot) :=
  match db.periods.find? fun p => p.id == periodId && p.tenantId == u.tenantId with
  | none => .error .notFound
  | some _ =>
    let snapshot : PublishSnapshot :=
      { id := snapId, tenantId := u.tenantId, periodId := periodId
      , name := name, description := description, publishedBy := u.objectId }
    let demandLines := (db.demands.filter fun d =>
      d.tenantId == u.tenantId && d.periodId == periodId).map (demandSnapshotLine db u snapId)
    let supplyLines := (db.supplies.filter fun s =>
      s.tenantId == u.tenantId && s.periodId == periodId).map (supplySnapshotLine db u snapId)
    let actualLines := (db.actuals.filter fun a =>
      a.tenantId == u.tenantId && a.periodId == periodId).map (actualSnapshotLine db u snapId)
    let oopLines := (db.oops.filter fun o =>
      o.tenantId == u.tenantId && o.periodId == periodId).map (oopSnapshotLine db u snapId)
    .ok ({ db with
            snapshots := db.snapshots ++ [snapshot],
            snapshotLines := db.snapshotLines ++
              (demandLines ++ supplyLines ++ actualLines ++ oopLines) }
        , snapshot)

/-- A mutation of a source planning line: the update and delete
operations the services expose for demand, supply and actual lines
(OoP lines have no mutation operation anywhere in the repository).
Each operation carries its caller. -/
inductive MutOp where
  | demandUpd (u : CurrentUser) (id : Nat) (fte : Int)
  | demandDel (u : CurrentUser) (id : Nat)
  | supplyUpd (u : CurrentUser) (id : Nat) (fte : Int)
  | supplyDel (u : CurrentUser) (id : Nat)
  | actualUpd (u : CurrentUser) (id : Nat) (fte : Int)
  | actualDel (u : CurrentUser) (id : Nat)
deriving DecidableEq, Repr

/-- Dispatch of a source-line mutation to the corresponding service
method, keeping only the resulting state. -/
def apply_mut_op (db : Db) (op : MutOp) : Except ApiError Db :=
  match op with
  | .demandUpd u id fte =>
    match demand_update db u id fte with
    | .error e => .error e
    | .ok (db', _) => .ok db'
  | .demandDel u id => demand_delete db u id
  | .supplyUpd u id fte =>
    match supply_update db u id fte with
    | .error e => .error e
    | .ok (db', _) => .ok db'
  | .supplyDel u id => supply_delete db u id
  | .actualUpd u id fte =>
    match actuals_update db u id fte with
    | .error e => .error e
    | .ok (db', _) => .ok db'
  | .actualDel u id => actuals_delete db u id

/-- A sequence of source-line mutations; a failing mutation rolls back
and leaves the state unchanged. -/
def apply_mut_ops (db : Db) : List MutOp → Db
  | [] => db
  | op :: ops =>
    match apply_mut_op db op with
    | .error _ => apply_mut_ops db ops
    | .ok db' => apply_mut_ops db' ops

/-- Gregorian leap-year rule (Python calendar semantics). -/
def isLeapYear (y : Nat) : Bool :=
  (y % 4 == 0 && y % 100 != 0) || y % 400 == 0

/-- Length of a month. -/
def daysInMonth (y m : Nat) : Nat :=
  if m == 2 then (if isLeapYear y then 29 else 28)
  else if m == 4 || m == 6 || m == 9 || m == 11 then 30
  else 31

/-- Cumulative day count of the months before m in a common year. -/
def monthDaysBefore (m : Nat) : Nat :=
  match m with
  | 1 => 0 | 2 => 31 | 3 => 59 | 4 => 90 | 5 => 120 | 6 => 151 | 7 => 181
  | 8 => 212 | 9 => 243 | 10 => 273 | 11 => 304 | 12 => 334 | _ => 0

/-- Cumulative day count of the months before m in year y. -/
def daysBeforeMonth (y m : Nat) : Nat :=
  monthDaysBefore m + (if 2 < m && isLeapYear y then 1 else 0)

/-- Proleptic Gregorian rata die: the ordinal Python's date.toordinal
assigns, with 0001-01-01 mapping to one. -/
def rataDie (d : Date) : Nat :=
  let y := d.year - 1
  365 * y + y / 4 - y / 100 + y / 400 + daysBeforeMonth d.year d.month + d.day

/-- Python date.weekday(): Monday is zero.  Day one, 0001-01-01, was a
Monday in the proleptic Gregorian calendar. -/
def pyWeekday (d : Date) : Nat := (rataDie d + 6) % 7

/-- The day after a date (Python date plus timedelta(days=1)). -/
def nextDay (d : Date) : Date :=
  if d.day < daysInMonth d.year d.month then ⟨d.year, d.month, d.day + 1⟩
  else if d.month < 12 then ⟨d.year, d.month + 1, 1⟩
  else ⟨d.year + 1, 1, 1⟩

/-- Adding a number of days to a date (Python date plus timedelta). -/
def addDays (d : Date) : Nat → Date
  | 0 => d
  | n + 1 => addDays (nextDay d) n

/-- NotificationsService._nth_weekday_of_month: the first occurrence of
the weekday in the month plus nth-1 weeks; the offset is the Python
nonnegative remainder of weekday minus the weekday of the first of the
month.  The service only calls this with nth of at least one. -/
def nth_weekday_of_month (year month weekday nth : Nat) : Date :=
  let firstDay : Date := ⟨year, month, 1⟩
  let offset := (((weekday : Int) - (pyWeekday firstDay : Int)) % 7).toNat
  addDays firstDay (offset + 7 * (nth - 1))

/-- The holiday dates NotificationsService._shift_to_next_workday loads:
the tenant's holidays within fourteen days of the base date. -/
def holidayWindowDates (db : Db) (tenantId : Nat) (base : Date) : List Date :=
  (db.holidays.filter fun h =>
    h.tenantId == tenantId && rataDie base ≤ rataDie h.date &&
    rataDie h.date ≤ rataDie base + 14).map fun h => h.date

/-- The bounded roll-forward loop of _shift_to_next_workday: while the
current day is a Saturday, a Sunday or a listed holiday, advance one
day, for at most fourteen iterations. -/
def shiftLoop (holidayDates : List Date) : Nat → Date → Date
  | 0, deadline => deadline
  | fuel + 1, deadline =>
    if pyWeekday deadline ≥ 5 || holidayDates.contains deadline then
      shiftLoop holidayDates fuel (addDays deadline 1)
    else deadline

/-- NotificationsService._shift_to_next_workday: without a tenant the
base date is returned unchanged, otherwise the roll-forward loop runs
with the tenant's holiday window. -/
def shift_to_next_workday (db : Db) (tenantId : Option Nat) (baseDate : Date) : Date :=
  match tenantId with
  | none => baseDate
  | some tid => shiftLoop (holidayWindowDates db tid baseDate) 14 baseDate

/-- The per-phase (weekday, nth) table of
NotificationsService._get_phase_base_date: PM_RO is the first Friday,
Finance the third Friday, Employee the fourth Monday and RO_Director
the fourth Tuesday. -/
def phaseRule (phase : NotificationPhase) : Nat × Nat :=
  match phase with
  | .PM_RO => (4, 1)
  | .Finance => (4, 3)
  | .Employee => (0, 4)
  | .RO_Director => (1, 4)

/-- NotificationsService._get_phase_base_date. -/
def get_phase_base_date (phase : NotificationPhase) (year month : Nat) : Date :=
  let rule := phaseRule phase
  nth_weekday_of_month year month rule.1 rule.2

/-- NotificationsService.calculate_phase_deadline for an authenticated
caller: the phase base date shifted to the next workday. -/
def calculate_phase_deadline (db : Db) (u : CurrentUser)
    (phase : NotificationPhase) (year month : Nat) : Date :=
  shift_to_next_workday db (some u.tenantId) (get_phase_base_date phase year month)

/-- NotificationsService._get_recipients_for_phase: the tenant's active
users holding one of the phase's roles. -/
def get_recipients_for_phase (db : Db) (u : CurrentUser)
    (phase : NotificationPhase) : List User :=
  let roles : List UserRole :=
    match phase with
    | .PM_RO => [.PM, .RO]
    | .Finance => [.FINANCE]
    | .Employee => [.EMPLOYEE]
    | .RO_Director => [.RO, .DIRECTOR]
  db.users.filter fun usr =>
    usr.tenantId == u.tenantId && roles.contains usr.role && usr.isActive

/-- Two-digit zero padding (the Python 02d format). -/
def pad2 (n : Nat) : String := if n < 10 then "0" ++ toString n else toString n

/-- Python str of a date: an ISO yyyy-mm-dd rendering. -/
def dateStr (d : Date) : String :=
  toString d.year ++ "-" ++ pad2 d.month ++ "-" ++ pad2 d.day

/-- NotificationsService._get_message_template. -/
def get_message_template (phase : NotificationPhase) (year month : Nat)
    (deadline : Date) : String :=
  match phase with
  | .PM_RO =>
    "Reminder: Please complete demand and supply planning for " ++ pad2 month ++ "/" ++
      toString year ++ " by " ++ dateStr deadline ++ "."
  | .Finance =>
    "Reminder: Planning data for " ++ pad2 month ++ "/" ++ toString year ++
      " is ready for review. Please consolidate by " ++ dateStr deadline ++ "."
  | .Employee =>
    "Reminder: Please enter your actuals for " ++ pad2 month ++ "/" ++ toString year ++
      " by " ++ dateStr deadline ++ "."
  | .RO_Director =>
    "Reminder: Actuals for " ++ pad2 month ++ "/" ++ toString year ++
      " are awaiting your approval. Please review by " ++ dateStr deadline ++ "."

/-- Outcome of NotificationsService.run_notifications: either the
already_run report carrying the existing run id, or a success carrying
the fresh run id and the number of notifications created. -/
inductive RunOutcome where
  | alreadyRun (existingRunId : Nat)
  | success (runId : Nat) (notificationsCount : Nat)
deriving DecidableEq, Repr

/-- The run id reported by an outcome. -/
def RunOutcome.reportedRunId : RunOutcome → Nat
  | .alreadyRun rid => rid
  | .success rid _ => rid

/-- NotificationsService.run_notifications: if a log row already exists
for (tenant, phase, year, month) the call is a no-op reporting the
existing row's run id with status already_run; otherwise one log row
per recipient is written under the fresh run id (status sent and a sent
timestamp in stub delivery mode, else pending).  The generated uuid4
run id and the wall clock are parameters. -/
def run_notifications (db : Db) (u : CurrentUser) (phase : NotificationPhase)
    (year month : Nat) (runId : Nat) (now : Nat) (notifyModeStub : Bool) :
    Db × RunOutcome :=
  match db.notificationLogs.find? fun l =>
      l.tenantId == u.tenantId && l.phase == phase && l.year == year && l.month == month with
  | some existing => (db, .alreadyRun existing.runId)
  | none =>
    let recipients := get_recipients_for_phase db u phase
    let deadline := calculate_phase_deadline db u phase year month
    let message := get_message_template phase year month deadline
    let newLogs : List NotificationLog := recipients.map fun r =>
      { tenantId := u.tenantId, phase := phase, year := year, month := month
      , recipientUserId := r.id, recipientEmail := r.email
      , status := if notifyModeStub then NotificationStatus.sent else NotificationStatus.pending
      , message := message, runId := runId
      , sentAt := if notifyModeStub then some now else none }
    ({ db with notificationLogs := db.notificationLogs ++ newLogs }
    , .success runId recipients.length)

/-! Claims. -/

/-- C3 counterexample: with no period at all for (tenant 1, 2026-04),
PeriodService.require_open succeeds silently instead of failing with
NotFound as the claim states. -/
theorem c3_require_open_missing_period_counterexample :
    findPeriod emptyDb 1 2026 4 = none ∧
    require_open emptyDb 1 2026 4 = Except.ok () := by
  constructor
  · rfl
  · rfl

/-- C3 amended: require_open fails with PeriodLocked exactly when the
period exists and is locked, and succeeds in every other case -
including when no period exists for the key (the code performs no
NotFound check). -/
theorem c3_require_open_amended (db : Db) (tenantId year month : Nat) :
    (require_open db tenantId year month = .error .periodLocked ↔
      ∃ p, findPeriod db tenantId year month = some p ∧ p.status = .locked) ∧
    (require_open db tenantId year month = .ok () ↔
      ¬ ∃ p, findPeriod db tenantId year month = some p ∧ p.status = .locked) := by
  unfold require_open
  cases h : findPeriod db tenantId year month with
  | none => simp
  | some p =>
    by_cases hp : p.status = .locked
    · simp [hp]
    · have : (p.status == PeriodStatus.locked) = false := by
        simpa [beq_iff_eq] using hp
      simp [this, hp]

/-- A database with an open period 2026-05, one resource, two projects
and one existing supply line for the resource in that month. -/
def supplyDemoDb : Db :=
  { emptyDb with
      periods := [{ id := 1, tenantId := 1, year := 2026, month := 5,
                    status := .opened, lockedAt := none, lockedBy := none,
                    lockReason := none }],
      resources := [{ id := 1, tenantId := 1, userId := none, costCenterId := 1,
                      displayName := "Res" }],
      projects := [{ id := 1, tenantId := 1, name := "Project A" },
                   { id := 2, tenantId := 1, name := "Project B" }],
      supplies := [{ id := 10, tenantId := 1, periodId := 1, resourceId := 1,
                     year := 2026, month := 5, ftePercent := 60, createdBy := 9 }] }

/-- C5: SupplyService.create takes no project argument at all and its
duplicate check is keyed on (tenant, resource, year, month) only, so
with one existing supply line for resource 1 in 2026-05 (created for
project 1) any further creation for the same resource and month fails
with Conflict - there is no way to create a second line for a
different project, contradicting the claimed
(tenant, resource, project, year, month) uniqueness. -/
theorem c5_supply_second_project_conflicts :
    supply_create supplyDemoDb ⟨1, 9, .RO⟩ 1 2026 5 40 11 = .error .conflict ∧
    supply_create supplyDemoDb ⟨1, 9, .RO⟩ 1 2026 5 60 12 = .error .conflict := by
  constructor
  · rfl
  · rfl

/-- A database with a locked period 2026-03 and one unsigned actual
line dated in that period. -/
def lockedPeriodDb : Db :=
  { emptyDb with
      periods := [{ id := 1, tenantId := 1, year := 2026, month := 3,
                    status := .locked, lockedAt := some 5, lockedBy := some 9,
                    lockReason := none }],
      resources := [{ id := 1, tenantId := 1, userId := none, costCenterId := 1,
                      displayName := "Res" }],
      projects := [{ id := 1, tenantId := 1, name := "Project A" }],
      actuals := [{ id := 10, tenantId := 1, periodId := 1, resourceId := 1,
                    projectId := 1, year := 2026, month := 3,
                    actualFtePercent := 50, plannedFtePercent := none,
                    employeeSignedAt := none, employeeSignedBy := none,
                    isProxySigned := false, proxySignReason := none,
                    createdBy := 2 }] }

/-- C2: with period 2026-03 locked, create, update, delete and sign of
the actual line dated in it all fail with PERIOD_LOCKED, but proxy_sign
- which performs no period check - succeeds: it marks the line signed
and even creates an approval instance inside the locked period. -/
theorem c2_proxy_sign_bypasses_period_lock :
    actuals_update lockedPeriodDb ⟨1, 2, .EMPLOYEE⟩ 10 40 = .error .periodLocked ∧
    actuals_delete lockedPeriodDb ⟨1, 2, .EMPLOYEE⟩ 10 = .error .periodLocked ∧
    actuals_sign lockedPeriodDb ⟨1, 2, .EMPLOYEE⟩ 10 100 77 = .error .periodLocked ∧
    actuals_create lockedPeriodDb ⟨1, 2, .EMPLOYEE⟩ 1 1 2026 3 20 none 11 =
      .error .periodLocked ∧
    (actuals_proxy_sign lockedPeriodDb ⟨1, 3, .RO⟩ 10 "employee absent" 100 77).isOk = true ∧
    ((actuals_proxy_sign lockedPeriodDb ⟨1, 3, .RO⟩ 10 "employee absent" 100 77).toOption.map
      fun r => (r.2.employeeSignedAt, r.2.isProxySigned, r.1.approvalInstances.length)) =
      some (some 77, true, 1) := by
  refine ⟨rfl, rfl, rfl, rfl, ?_, ?_⟩
  · decide
  · decide

/-- The 4MFC test is exactly a strict comparison of month indexes:
the boundary produced by adding four calendar months to now sits at
index now.year*12 + now.month + 4. -/
theorem is_within_4mfc_iff (now : Date) (y m : Nat) (hm : 1 ≤ now.month) :
    is_within_4mfc now y m = true ↔ y * 12 + m < now.year * 12 + now.month + 4 := by
  unfold is_within_4mfc get_4mfc_boundary
  simp only [decide_eq_true_eq]
  omega

/-- C6: for a createDemand carrying a placeholder (and no resource)
against an open period, the call fails with PLACEHOLDER_BLOCKED_4MFC
exactly when the target month index year*12+month is strictly below the
index of the month four calendar months after now; at the boundary
index itself the 4MFC error can no longer occur. -/
theorem c6_placeholder_blocked_4mfc_iff
    (db : Db) (u : CurrentUser) (now : Date)
    (projectId year month newId phId : Nat) (fte : Int) (p : Period)
    (hm : 1 ≤ now.month)
    (hopen : check_period_open db u.tenantId year month = .ok p) :
    (demand_create db u now projectId year month fte none (some phId) newId =
        .error .placeholderBlocked4mfc) ↔
      year * 12 + month < now.year * 12 + now.month + 4 := by
  rw [← is_within_4mfc_iff now year month hm]
  unfold demand_create
  rw [hopen]
  by_cases h4 : is_within_4mfc now year month = true
  · simp [h4]
  · simp only [Bool.not_eq_true] at h4
    simp only [Option.isSome_none, Option.isSome_some, Bool.false_and, Bool.not_false,
      Bool.not_true, Bool.true_and, Bool.and_false, Bool.false_or, if_false, h4,
      Bool.and_self, ite_false, Bool.false_eq_true, iff_false]
    (repeat' split) <;> simp

/-- A database with open periods 2026-03 and 2026-09, a project and a
placeholder, used to exercise the 4MFC window. -/
def fourMfcDb : Db :=
  { emptyDb with
      periods := [{ id := 1, tenantId := 1, year := 2026, month := 3,
                    status := .opened, lockedAt := none, lockedBy := none,
                    lockReason := none },
                  { id := 2, tenantId := 1, year := 2026, month := 9,
                    status := .opened, lockedAt := none, lockedBy := none,
                    lockReason := none }],
      projects := [{ id := 1, tenantId := 1, name := "Project A" }],
      placeholders := [{ id := 1, tenantId := 1, name := "New hire" }] }

/-- C6 witness: with now 2026-01-15 the boundary is 2026-05, so a
placeholder demand for 2026-03 is blocked while one for 2026-09 is not. -/
theorem c6_placeholder_blocked_4mfc_witness :
    (demand_create fourMfcDb ⟨1, 5, .PM⟩ ⟨2026, 1, 15⟩ 1 2026 3 50 none (some 1) 11 =
      .error .placeholderBlocked4mfc) ∧
    ¬(demand_create fourMfcDb ⟨1, 5, .PM⟩ ⟨2026, 1, 15⟩ 1 2026 9 50 none (some 1) 12 =
      .error .placeholderBlocked4mfc) := by
  have h1 := c6_placeholder_blocked_4mfc_iff fourMfcDb ⟨1, 5, .PM⟩ ⟨2026, 1, 15⟩
    1 2026 3 11 1 50
    { id := 1, tenantId := 1, year := 2026, month := 3, status := .opened,
      lockedAt := none, lockedBy := none, lockReason := none }
    (by decide) rfl
  have h2 := c6_placeholder_blocked_4mfc_iff fourMfcDb ⟨1, 5, .PM⟩ ⟨2026, 1, 15⟩
    1 2026 9 12 1 50
    { id := 2, tenantId := 1, year := 2026, month := 9, status := .opened,
      lockedAt := none, lockedBy := none, lockReason := none }
    (by decide) rfl
  exact ⟨h1.mpr (by decide), fun h => absurd (h2.mp h) (by decide)⟩

/-- C9: run_notifications is idempotent on (tenant, phase, year,
month): whenever a log row already exists for the key, the run leaves
the database unchanged and reports the existing row's run id with
status already_run; consequently a first run (with at least one
recipient) followed by a second run for the same key leaves the second
run a no-op that reports exactly the first run's run id. -/
theorem c9_run_notifications_idempotent
    (db : Db) (u : CurrentUser) (phase : NotificationPhase) (year month : Nat)
    (rid1 rid2 now1 now2 : Nat) (stub1 stub2 : Bool) :
    (∀ log, db.notificationLogs.find? (fun l =>
        l.tenantId == u.tenantId && l.phase == phase &&
        l.year == year && l.month == month) = some log →
      run_notifications db u phase year month rid1 now1 stub1 =
        (db, .alreadyRun log.runId)) ∧
    (db.notificationLogs.find? (fun l =>
        l.tenantId == u.tenantId && l.phase == phase &&
        l.year == year && l.month == month) = none →
      get_recipients_for_phase db u phase ≠ [] →
      (run_notifications db u phase year month rid1 now1 stub1).2 =
        .success rid1 (get_recipients_for_phase db u phase).length ∧
      run_notifications (run_notifications db u phase year month rid1 now1 stub1).1
          u phase year month rid2 now2 stub2 =
        ((run_notifications db u phase year month rid1 now1 stub1).1,
          .alreadyRun rid1)) := by
  constructor
  · intro log h
    unfold run_notifications
    rw [h]
  · intro h hne
    unfold run_notifications
    rw [h]
    refine ⟨rfl, ?_⟩
    cases hrec : get_recipients_for_phase db u phase with
    | nil => exact absurd hrec hne
    | cons r rs =>
      simp only [hrec, List.map_cons]
      rw [List.find?_append, h, Option.none_or, List.find?_cons_of_pos]
      all_goals simp

/-- A database with a single active PM user for notification runs. -/
def notifyDb : Db :=
  { emptyDb with
      users := [{ id := 1, tenantId := 1, objectId := 11, email := "pm.one", 
                  displayName := "PM One", role := .PM, departmentId := none,
                  costCenterId := none, isActive := true }] }

/-- C9 witness: a first PM_RO run for 2026-04 succeeds with run id 111,
and an identical second run is a no-op reporting run id 111. -/
theorem c9_run_notifications_idempotent_witness :
    (run_notifications notifyDb ⟨1, 11, .PM⟩ .PM_RO 2026 4 111 50 true).2 =
      .success 111 1 ∧
    run_notifications (run_notifications notifyDb ⟨1, 11, .PM⟩ .PM_RO 2026 4 111 50 true).1
        ⟨1, 11, .PM⟩ .PM_RO 2026 4 222 60 true =
      ((run_notifications notifyDb ⟨1, 11, .PM⟩ .PM_RO 2026 4 111 50 true).1,
        .alreadyRun 111) := by
  have h := (c9_run_notifications_idempotent notifyDb ⟨1, 11, .PM⟩ .PM_RO 2026 4
    111 222 50 60 true true).2 rfl (by decide)
  refine ⟨?_, h.2⟩
  rw [h.1]
  rfl

/-- Day addition composes additively. -/
theorem addDays_add (d : Date) (a b : Nat) :
    addDays d (a + b) = addDays (addDays d a) b := by
  induction a generalizing d with
  | zero => simp [addDays]
  | succ k ih =>
    have h1 : k + 1 + b = (k + b) + 1 := by omega
    rw [h1]
    show addDays (nextDay d) (k + b) = addDays (addDays (nextDay d) k) b
    exact ih (nextDay d)

/-- C10: the phase deadline is the nth weekday of the month - the first
occurrence of the weekday plus nth-1 weeks, Monday being weekday zero -
shifted forward one day at a time while it falls on a Saturday, a
Sunday or a tenant holiday, bounded to fourteen iterations; concretely,
for April 2026 with no holidays, PM_RO (first Friday) yields 2026-04-03
and RO_Director (fourth Tuesday) yields 2026-04-28, falling on a Friday
and a Tuesday respectively. -/
theorem c10_phase_deadline_algorithm :
    (∀ year month weekday nth, nth_weekday_of_month year month weekday nth =
        addDays (nth_weekday_of_month year month weekday 1) (7 * (nth - 1))) ∧
    (∀ holidayDates fuel d, pyWeekday d < 5 → holidayDates.contains d = false →
        shiftLoop holidayDates (fuel + 1) d = d) ∧
    (∀ holidayDates fuel d, 5 ≤ pyWeekday d ∨ holidayDates.contains d = true →
        shiftLoop holidayDates (fuel + 1) d =
          shiftLoop holidayDates fuel (addDays d 1)) ∧
    (∀ db u phase year month, calculate_phase_deadline db u phase year month =
        shiftLoop (holidayWindowDates db u.tenantId (get_phase_base_date phase year month))
          14 (get_phase_base_date phase year month)) ∧
    calculate_phase_deadline emptyDb ⟨1, 1, .FINANCE⟩ .PM_RO 2026 4 = ⟨2026, 4, 3⟩ ∧
    calculate_phase_deadline emptyDb ⟨1, 1, .FINANCE⟩ .RO_Director 2026 4 = ⟨2026, 4, 28⟩ ∧
    pyWeekday ⟨2026, 4, 3⟩ = 4 ∧
    pyWeekday ⟨2026, 4, 28⟩ = 1 := by
  refine ⟨?_, ?_, ?_, ?_, ?_, ?_, ?_, ?_⟩
  · intro year month weekday nth
    unfold nth_weekday_of_month
    simp only [Nat.sub_self, Nat.mul_zero, Nat.add_zero]
    exact addDays_add _ _ _
  · intro hol fuel d hw hcon
    have hc : (decide (pyWeekday d ≥ 5) || hol.contains d) = false := by
      simp only [hcon, Bool.or_false, decide_eq_false_iff_not]
      omega
    conv_lhs => rw [shiftLoop]
    rw [if_neg (by simp_all)]
  · intro hol fuel d hcond
    have hc : (decide (pyWeekday d ≥ 5) || hol.contains d) = true := by
      rcases hcond with h | h
      · simp [h]
      · rw [h, Bool.or_true]
    conv_lhs => rw [shiftLoop]
    rw [if_pos hc]
  · intro db u phase year month
    rfl
  · decide
  · decide
  · decide
  · decide

/-- C10 witness: the algorithm facts applied at April 2026 - the third
Friday is the first Friday plus two weeks, the loop keeps Friday
2026-04-03 in place and steps over Saturday 2026-04-04, and the PM_RO
deadline is the bounded shift of the phase base date. -/
theorem c10_phase_deadline_algorithm_witness :
    nth_weekday_of_month 2026 4 4 3 = addDays (nth_weekday_of_month 2026 4 4 1) 14 ∧
    shiftLoop [] 13 ⟨2026, 4, 3⟩ = ⟨2026, 4, 3⟩ ∧
    shiftLoop [] 14 ⟨2026, 4, 4⟩ = shiftLoop [] 13 (addDays ⟨2026, 4, 4⟩ 1) ∧
    calculate_phase_deadline emptyDb ⟨1, 1, .FINANCE⟩ .PM_RO 2026 4 =
      shiftLoop (holidayWindowDates emptyDb 1 (get_phase_base_date .PM_RO 2026 4)) 14
        (get_phase_base_date .PM_RO 2026 4) := by
  have h := c10_phase_deadline_algorithm
  refine ⟨h.1 2026 4 4 3, ?_, ?_, h.2.2.2.1 emptyDb ⟨1, 1, .FINANCE⟩ .PM_RO 2026 4⟩
  · exact h.2.1 [] 12 ⟨2026, 4, 3⟩ (by decide) (by decide)
  · exact h.2.2.1 [] 13 ⟨2026, 4, 4⟩ (Or.inl (by decide))

/-- A database with a pending RO approval step that names an explicit
approver (user id 7) and an unrelated user (id 2) who holds the RO
role. -/
def approvalsAuthDb : Db :=
  { emptyDb with
      users := [{ id := 2, tenantId := 1, objectId := 20, email := "ro.holder",
                  displayName := "RO Holder", role := .RO, departmentId := none,
                  costCenterId := none, isActive := true }],
      approvalInstances := [{ id := 1, tenantId := 1, subjectType := "actuals",
                              subjectId := 10, status := .pending, createdBy := 0 }],
      approvalSteps := [{ id := 5, instanceId := 1, stepOrder := 1, stepName := "RO",
                          approverId := some 7, status := .pending,
                          actionedAt := none, actionedBy := none, comment := none }] }

/-- C7 counterexample: the acting user holds the step's named role (RO)
yet both approve and reject fail with UNAUTHORIZED_ROLE, because the
step carries an explicit approver (user 7) and the role fallback only
applies when no approver is set. -/
theorem c7_role_holder_rejected_counterexample :
    approve_step approvalsAuthDb ⟨1, 20, .RO⟩ 1 5 none 100 50 =
      .error .unauthorizedRole ∧
    reject_step approvalsAuthDb ⟨1, 20, .RO⟩ 1 5 none 100 50 =
      .error .unauthorizedRole ∧
    (approvals_get_user approvalsAuthDb ⟨1, 20, .RO⟩).map (fun usr => usr.role) =
      some .RO ∧
    ((approvalsAuthDb.approvalSteps.find? fun s => s.id == 5).map
      fun s => (s.stepName, s.approverId, s.status)) =
      some ("RO", some 7, .pending) := by
  exact ⟨rfl, rfl, rfl, rfl⟩

/-- C7 amended: for a pending step and a caller whose user row exists,
approve and reject fail with UNAUTHORIZED_ROLE exactly when
_can_user_action_step denies the caller; and that check authorizes,
when an explicit approver is set, only that approver (role holders are
denied), and otherwise exactly the holders of the step's named role. -/
theorem c7_unauthorized_role_amended
    (db : Db) (u : CurrentUser) (instanceId stepId : Nat) (comment : Option String)
    (actionId now : Nat) (inst : ApprovalInstance) (step : ApprovalStep) (user : User)
    (hinst : db.approvalInstances.find?
      (fun i => i.id == instanceId && i.tenantId == u.tenantId) = some inst)
    (hstep : db.approvalSteps.find?
      (fun s => s.id == stepId && s.instanceId == instanceId) = some step)
    (hpending : step.status = .pending)
    (huser : approvals_get_user db u = some user) :
    (approve_step db u instanceId stepId comment actionId now =
        .error .unauthorizedRole ↔ can_user_action_step user step = false) ∧
    (reject_step db u instanceId stepId comment actionId now =
        .error .unauthorizedRole ↔ can_user_action_step user step = false) ∧
    (can_user_action_step user step = true ↔
      (match step.approverId with
       | some approverId => user.id = approverId
       | none => (step.stepName = "RO" ∧ user.role = .RO) ∨
                 (step.stepName = "Director" ∧ user.role = .DIRECTOR))) := by
  refine ⟨?_, ?_, ?_⟩
  · unfold approve_step
    rw [hinst, hstep, huser]
    by_cases hcan : can_user_action_step user step = true
    · simp only [hpending, bne_self_eq_false, Bool.false_eq_true, if_false, hcan,
        Bool.not_true, hcan, Bool.true_eq_false, iff_false]
      (repeat' split) <;> simp
    · have hcf : can_user_action_step user step = false := by
        simpa using hcan
      simp [hpending, hcf]
  · unfold reject_step
    rw [hinst, hstep, huser]
    by_cases hcan : can_user_action_step user step = true
    · simp only [hpending, bne_self_eq_false, Bool.false_eq_true, if_false, hcan,
        Bool.not_true, hcan, Bool.true_eq_false, iff_false]
      (repeat' split) <;> simp
    · have hcf : can_user_action_step user step = false := by
        simpa using hcan
      simp [hpending, hcf]
  · unfold can_user_action_step
    cases happ : step.approverId with
    | some approverId =>
      simp only [beq_iff_eq]
      exact eq_comm
    | none =>
      by_cases hro : step.stepName = "RO"
      · simp [hro]
      · by_cases hdir : step.stepName = "Director"
        · simp [hro, hdir]
        · simp [hro, hdir]

/-- C7 witness: the amended characterization applied to the concrete
database - the RO-role holder is denied because an explicit approver is
set. -/
theorem c7_unauthorized_role_amended_witness :
    approve_step approvalsAuthDb ⟨1, 20, .RO⟩ 1 5 none 100 50 =
      .error .unauthorizedRole := by
  have h := c7_unauthorized_role_amended approvalsAuthDb ⟨1, 20, .RO⟩ 1 5 none 100 50
    { id := 1, tenantId := 1, subjectType := "actuals", subjectId := 10,
      status := .pending, createdBy := 0 }
    { id := 5, instanceId := 1, stepOrder := 1, stepName := "RO",
      approverId := some 7, status := .pending, actionedAt := none,
      actionedBy := none, comment := none }
    { id := 2, tenantId := 1, objectId := 20, email := "ro.holder",
      displayName := "RO Holder", role := .RO, departmentId := none,
      costCenterId := none, isActive := true }
    rfl rfl rfl rfl
  exact h.1.mpr (by decide)

/-- Updating a demand line never touches the snapshot tables. -/
theorem demand_update_frame (db : Db) (u : CurrentUser) (id : Nat) (f : Int)
    (db' : Db) (l : DemandLine) (h : demand_update db u id f = .ok (db', l)) :
    db'.snapshots = db.snapshots ∧ db'.snapshotLines = db.snapshotLines := by
  simp only [demand_update] at h
  (repeat' split at h) <;>
    first
      | exact Except.noConfusion h
      | (injection h with h1
         obtain ⟨h2, h3⟩ := Prod.mk.injEq .. |>.mp h1
         rw [← h2]; exact ⟨rfl, rfl⟩)

/-- Deleting a demand line never touches the snapshot tables. -/
theorem demand_delete_frame (db : Db) (u : CurrentUser) (id : Nat)
    (db' : Db) (h : demand_delete db u id = .ok db') :
    db'.snapshots = db.snapshots ∧ db'.snapshotLines = db.snapshotLines := by
  simp only [demand_delete] at h
  (repeat' split at h) <;>
    first
      | exact Except.noConfusion h
      | (injection h with h1; subst h1; exact ⟨rfl, rfl⟩)

/-- Updating a supply line never touches the snapshot tables. -/
theorem supply_update_frame (db : Db) (u : CurrentUser) (id : Nat) (f : Int)
    (db' : Db) (l : SupplyLine) (h : supply_update db u id f = .ok (db', l)) :
    db'.snapshots = db.snapshots ∧ db'.snapshotLines = db.snapshotLines := by
  simp only [supply_update] at h
  (repeat' split at h) <;>
    first
      | exact Except.noConfusion h
      | (injection h with h1
         obtain ⟨h2, h3⟩ := Prod.mk.injEq .. |>.mp h1
         rw [← h2]; exact ⟨rfl, rfl⟩)

/-- Deleting a supply line never touches the snapshot tables. -/
theorem supply_delete_frame (db : Db) (u : CurrentUser) (id : Nat)
    (db' : Db) (h : supply_delete db u id = .ok db') :
    db'.snapshots = db.snapshots ∧ db'.snapshotLines = db.snapshotLines := by
  simp only [supply_delete] at h
  (repeat' split at h) <;>
    first
      | exact Except.noConfusion h
      | (injection h with h1; subst h1; exact ⟨rfl, rfl⟩)

/-- Updating an actual line never touches the snapshot tables. -/
theorem actuals_update_frame (db : Db) (u : CurrentUser) (id : Nat) (f : Int)
    (db' : Db) (l : ActualLine) (h : actuals_update db u id f = .ok (db', l)) :
    db'.snapshots = db.snapshots ∧ db'.snapshotLines = db.snapshotLines := by
  simp only [actuals_update] at h
  (repeat' split at h) <;>
    first
      | exact Except.noConfusion h
      | (injection h with h1
         obtain ⟨h2, h3⟩ := Prod.mk.injEq .. |>.mp h1
         rw [← h2]; exact ⟨rfl, rfl⟩)

/-- Deleting an actual line never touches the snapshot tables. -/
theorem actuals_delete_frame (db : Db) (u : CurrentUser) (id : Nat)
    (db' : Db) (h : actuals_delete db u id = .ok db') :
    db'.snapshots = db.snapshots ∧ db'.snapshotLines = db.snapshotLines := by
  simp only [actuals_delete] at h
  (repeat' split at h) <;>
    first
      | exact Except.noConfusion h
      | (injection h with h1; subst h1; exact ⟨rfl, rfl⟩)

/-- A single source-line mutation never touches the snapshot tables. -/
theorem apply_mut_op_preserves_snapshots (db : Db) (op : MutOp) (db' : Db)
    (h : apply_mut_op db op = .ok db') :
    db'.snapshots = db.snapshots ∧ db'.snapshotLines = db.snapshotLines := by
  cases op with
  | demandUpd u id fte =>
    simp only [apply_mut_op] at h
    cases hcall : demand_update db u id fte with
    | error e => rw [hcall] at h; exact Except.noConfusion h
    | ok res =>
      obtain ⟨d1, l1⟩ := res
      rw [hcall] at h
      injection h with h1
      subst h1
      exact demand_update_frame db u id fte d1 l1 hcall
  | demandDel u id =>
    simp only [apply_mut_op] at h
    exact demand_delete_frame db u id db' h
  | supplyUpd u id fte =>
    simp only [apply_mut_op] at h
    cases hcall : supply_update db u id fte with
    | error e => rw [hcall] at h; exact Except.noConfusion h
    | ok res =>
      obtain ⟨d1, l1⟩ := res
      rw [hcall] at h
      injection h with h1
      subst h1
      exact supply_update_frame db u id fte d1 l1 hcall
  | supplyDel u id =>
    simp only [apply_mut_op] at h
    exact supply_delete_frame db u id db' h
  | actualUpd u id fte =>
    simp only [apply_mut_op] at h
    cases hcall : actuals_update db u id fte with
    | error e => rw [hcall] at h; exact Except.noConfusion h
    | ok res =>
      obtain ⟨d1, l1⟩ := res
      rw [hcall] at h
      injection h with h1
      subst h1
      exact actuals_update_frame db u id fte d1 l1 hcall
  | actualDel u id =>
    simp only [apply_mut_op] at h
    exact actuals_delete_frame db u id db' h

/-- A whole sequence of source-line mutations never touches the
snapshot tables. -/
theorem apply_mut_ops_preserves_snapshots (ops : List MutOp) (db : Db) :
    (apply_mut_ops db ops).snapshots = db.snapshots ∧
    (apply_mut_ops db ops).snapshotLines = db.snapshotLines := by
  induction ops generalizing db with
  | nil => exact ⟨rfl, rfl⟩
  | cons op ops ih =>
    unfold apply_mut_ops
    cases hop : apply_mut_op db op with
    | error e => exact ih db
    | ok db1 =>
      have hp := apply_mut_op_preserves_snapshots db op db1 hop
      have hi := ih db1
      exact ⟨hi.1.trans hp.1, hi.2.trans hp.2⟩

/-- C8: once publish_snapshot has completed, the created snapshot is in
the store and any later sequence of update or delete operations on
demand, supply or actual source lines (OoP lines have no mutation
operation in the repository) leaves the snapshot rows and every
snapshot line row exactly as they were. -/
theorem c8_snapshot_immutable_after_publish
    (db : Db) (u : CurrentUser) (periodId snapId : Nat) (name : String)
    (description : Option String) (db1 : Db) (snap : PublishSnapshot)
    (hpub : publish_snapshot db u periodId name description snapId = .ok (db1, snap))
    (ops : List MutOp) :
    snap ∈ db1.snapshots ∧
    (apply_mut_ops db1 ops).snapshots = db1.snapshots ∧
    (apply_mut_ops db1 ops).snapshotLines = db1.snapshotLines := by
  refine ⟨?_, (apply_mut_ops_preserves_snapshots ops db1).1,
    (apply_mut_ops_preserves_snapshots ops db1).2⟩
  unfold publish_snapshot at hpub
  split at hpub
  · exact absurd hpub (by simp)
  · injection hpub with hp
    obtain ⟨h1, h2⟩ := Prod.mk.injEq .. |>.mp hp
    rw [← h1, ← h2]
    exact List.mem_append_right _ (List.mem_singleton.mpr rfl)

/-- A database with one demand line in period 2026-02, used to publish
a snapshot and then mutate the source line. -/
def snapDemoDb : Db :=
  { emptyDb with
      periods := [{ id := 1, tenantId := 1, year := 2026, month := 2,
                    status := .opened, lockedAt := none, lockedBy := none,
                    lockReason := none }],
      projects := [{ id := 1, tenantId := 1, name := "Project A" }],
      resources := [{ id := 1, tenantId := 1, userId := none, costCenterId := 1,
                      displayName := "Res" }],
      demands := [{ id := 21, tenantId := 1, periodId := 1, projectId := 1,
                    resourceId := some 1, placeholderId := none, year := 2026,
                    month := 2, ftePercent := 50, createdBy := 9 }] }

/-- The state right after publishing a snapshot of snapDemoDb. -/
def snapPublishedDb : Db :=
  match publish_snapshot snapDemoDb ⟨1, 9, .FINANCE⟩ 1 "Feb final" none 500 with
  | .ok (db1, _) => db1
  | .error _ => emptyDb

/-- The snapshot created for snapDemoDb. -/
def snapPublished : PublishSnapshot :=
  match publish_snapshot snapDemoDb ⟨1, 9, .FINANCE⟩ 1 "Feb final" none 500 with
  | .ok (_, snap) => snap
  | .error _ => { id := 0, tenantId := 0, periodId := 0, name := "",
                  description := none, publishedBy := 0 }

/-- C8 witness: publishing a snapshot of snapDemoDb and then updating
and finally deleting the copied demand line leaves the snapshot tables
untouched. -/
theorem c8_snapshot_immutable_after_publish_witness :
    snapPublished ∈ snapPublishedDb.snapshots ∧
    (apply_mut_ops snapPublishedDb
      [.demandUpd ⟨1, 9, .PM⟩ 21 75, .demandDel ⟨1, 9, .PM⟩ 21]).snapshots =
      snapPublishedDb.snapshots ∧
    (apply_mut_ops snapPublishedDb
      [.demandUpd ⟨1, 9, .PM⟩ 21 75, .demandDel ⟨1, 9, .PM⟩ 21]).snapshotLines =
      snapPublishedDb.snapshotLines :=
  c8_snapshot_immutable_after_publish snapDemoDb ⟨1, 9, .FINANCE⟩ 1 500 "Feb final"
    none snapPublishedDb snapPublished rfl
    [.demandUpd ⟨1, 9, .PM⟩ 21 75, .demandDel ⟨1, 9, .PM⟩ 21]

/-- C1: for an otherwise valid createActual (open period, valid FTE,
existing resource and project, no duplicate line) and for an otherwise
valid update of an unsigned actual line, the operation fails with
ACTUALS_OVER_100 exactly when the sum of actual_fte_percent over the
resource's existing lines for the month - excluding the line being
changed, for updates - plus the submitted FTE strictly exceeds 100; the
error carries that resulting total and the ids of the existing lines,
and a resulting total of at most 100 (in particular exactly 100)
succeeds. -/
theorem c1_actuals_over_100_iff :
    (∀ (db : Db) (u : CurrentUser) (resourceId projectId year month newId : Nat)
       (fte : Int) (planned : Option Int) (p : Period) (r0 : Resource) (pr0 : Project),
       check_period_open db u.tenantId year month = .ok p →
       fteValidActual fte = true →
       (db.resources.find? fun r => r.id == resourceId && r.tenantId == u.tenantId) =
         some r0 →
       (db.projects.find? fun pr => pr.id == projectId && pr.tenantId == u.tenantId) =
         some pr0 →
       (db.actuals.find? fun a =>
         a.tenantId == u.tenantId && a.resourceId == resourceId &&
         a.projectId == projectId && a.year == year && a.month == month) = none →
       ((actuals_create db u resourceId projectId year month fte planned newId =
           .error (.actualsOver100
             (actualsTotalFor db u.tenantId resourceId year month none + fte)
             resourceId year month
             ((actualsLinesFor db u.tenantId resourceId year month none).map fun l => l.id)) ↔
         100 < actualsTotalFor db u.tenantId resourceId year month none + fte) ∧
        (actualsTotalFor db u.tenantId resourceId year month none + fte ≤ 100 →
          (actuals_create db u resourceId projectId year month fte planned newId).isOk =
            true))) ∧
    (∀ (db : Db) (u : CurrentUser) (actualId : Nat) (fte : Int)
       (actual : ActualLine) (p : Period),
       actuals_get_by_id db u actualId = some actual →
       actual.employeeSignedAt = none →
       check_period_open db u.tenantId actual.year actual.month = .ok p →
       fteValidActual fte = true →
       ((actuals_update db u actualId fte =
           .error (.actualsOver100
             (actualsTotalFor db u.tenantId actual.resourceId actual.year actual.month
               (some actual.id) + fte)
             actual.resourceId actual.year actual.month
             ((actualsLinesFor db u.tenantId actual.resourceId actual.year actual.month
               (some actual.id)).map fun l => l.id)) ↔
         100 < actualsTotalFor db u.tenantId actual.resourceId actual.year actual.month
           (some actual.id) + fte) ∧
        (actualsTotalFor db u.tenantId actual.resourceId actual.year actual.month
            (some actual.id) + fte ≤ 100 →
          (actuals_update db u actualId fte).isOk = true))) := by
  constructor
  · intro db u resourceId projectId year month newId fte planned p r0 pr0
      hopen hfte hres hproj hdup
    unfold actuals_create
    rw [hopen, hres, hproj]
    simp only [hfte, Bool.not_true, Bool.false_eq_true, if_false, hdup,
      Option.isSome_none, ite_false]
    unfold check_100_percent_limit
    by_cases hover :
        100 < actualsTotalFor db u.tenantId resourceId year month none + fte
    · rw [if_pos]
      · refine ⟨⟨fun _ => hover, fun _ => rfl⟩, fun hle => absurd hover (not_lt.mpr hle)⟩
      · simpa [actualsTotalFor] using hover
    · rw [if_neg]
      · refine ⟨⟨fun hcontra => absurd hcontra (by simp), fun hc => absurd hc hover⟩,
          fun _ => rfl⟩
      · simpa [actualsTotalFor] using hover
  · intro db u actualId fte actual p hget hunsigned hopen hfte
    unfold actuals_update
    rw [hget]
    dsimp only
    rw [hopen]
    simp only [hunsigned, Option.isSome_none, Bool.false_eq_true, if_false,
      hfte, Bool.not_true, ite_false]
    unfold check_100_percent_limit
    by_cases hover :
        100 < actualsTotalFor db u.tenantId actual.resourceId actual.year actual.month
          (some actual.id) + fte
    · rw [if_pos]
      · refine ⟨⟨fun _ => hover, fun _ => rfl⟩, fun hle => absurd hover (not_lt.mpr hle)⟩
      · simpa [actualsTotalFor] using hover
    · rw [if_neg]
      · refine ⟨⟨fun hcontra => absurd hcontra (by simp), fun hc => absurd hc hover⟩,
          fun _ => rfl⟩
      · simpa [actualsTotalFor] using hover

/-- A database with an open period 2026-01, one resource, two projects
and an existing 60 percent actual line on project 1. -/
def actualsDemoDb : Db :=
  { emptyDb with
      periods := [{ id := 1, tenantId := 1, year := 2026, month := 1,
                    status := .opened, lockedAt := none, lockedBy := none,
                    lockReason := none }],
      resources := [{ id := 1, tenantId := 1, userId := none, costCenterId := 1,
                      displayName := "Res" }],
      projects := [{ id := 1, tenantId := 1, name := "Project A" },
                   { id := 2, tenantId := 1, name := "Project B" }],
      actuals := [{ id := 30, tenantId := 1, periodId := 1, resourceId := 1,
                    projectId := 1, year := 2026, month := 1,
                    actualFtePercent := 60, plannedFtePercent := none,
                    employeeSignedAt := none, employeeSignedBy := none,
                    isProxySigned := false, proxySignReason := none,
                    createdBy := 9 }] }

/-- C1 witness: with an existing 60 percent line, adding 50 percent on
another project fails with ACTUALS_OVER_100 carrying total 110 and the
existing line id, while adding 40 percent succeeds. -/
theorem c1_actuals_over_100_iff_witness :
    actuals_create actualsDemoDb ⟨1, 9, .EMPLOYEE⟩ 1 2 2026 1 50 none 31 =
      .error (.actualsOver100 110 1 2026 1 [30]) ∧
    (actuals_create actualsDemoDb ⟨1, 9, .EMPLOYEE⟩ 1 2 2026 1 40 none 31).isOk =
      true := by
  have h50 := c1_actuals_over_100_iff.1 actualsDemoDb ⟨1, 9, .EMPLOYEE⟩ 1 2 2026 1 31
    50 none
    { id := 1, tenantId := 1, year := 2026, month := 1, status := .opened,
      lockedAt := none, lockedBy := none, lockReason := none }
    { id := 1, tenantId := 1, userId := none, costCenterId := 1, displayName := "Res" }
    { id := 2, tenantId := 1, name := "Project B" }
    rfl rfl rfl rfl rfl
  have h40 := c1_actuals_over_100_iff.1 actualsDemoDb ⟨1, 9, .EMPLOYEE⟩ 1 2 2026 1 31
    40 none
    { id := 1, tenantId := 1, year := 2026, month := 1, status := .opened,
      lockedAt := none, lockedBy := none, lockReason := none }
    { id := 1, tenantId := 1, userId := none, costCenterId := 1, displayName := "Res" }
    { id := 2, tenantId := 1, name := "Project B" }
    rfl rfl rfl rfl rfl
  exact ⟨h50.1.mpr (by decide), h40.2 (by decide)⟩

/-- The RO step record created for a fresh instance id (the first
ApprovalStep literal in create_approval_for_actuals when both
approvers resolve to the same user). -/
def c4RoStep (freshId approverId : Nat) : ApprovalStep :=
  { id := freshId + 1, instanceId := freshId, stepOrder := 1, stepName := "RO",
    approverId := some approverId, status := .pending, actionedAt := none,
    actionedBy := none, comment := none }

/-- The skipped Director step record created when both approvers
resolve to the same user. -/
def c4DirStep (freshId approverId : Nat) : ApprovalStep :=
  { id := freshId + 2, instanceId := freshId, stepOrder := 2, stepName := "Director",
    approverId := some approverId, status := .skipped, actionedAt := none,
    actionedBy := none, comment := none }

/-- The instance record created on first signing. -/
def c4Inst (u : CurrentUser) (actual : ActualLine) (freshId : Nat) : ApprovalInstance :=
  { id := freshId, tenantId := u.tenantId, subjectType := "actuals",
    subjectId := actual.id, status := .pending, createdBy := u.objectId }

/-- The database state right after the degenerate two-step instance is
created. -/
def c4Db (db : Db) (u : CurrentUser) (actual : ActualLine) (freshId approverId : Nat) : Db :=
  { db with
      approvalInstances := db.approvalInstances ++ [c4Inst u actual freshId],
      approvalSteps := db.approvalSteps ++
        [c4RoStep freshId approverId, c4DirStep freshId approverId] }

/-- C4: when the resource's cost-center owner and the department
Director resolve to the same non-null user, the approval instance
created on first signing has the RO step (order 1) pending and the
Director step (order 2) already skipped, and one approval of the RO
step by any authorized actor moves the instance to APPROVED.  The
freshness hypotheses say the generated uuids do not collide with
existing rows. -/
theorem c4_shared_approver_degenerates_to_single_step
    (db : Db) (u : CurrentUser) (actual : ActualLine) (freshId : Nat)
    (resource : Resource) (approverId : Nat)
    (hres : db.resources.find? (fun r => r.id == actual.resourceId) = some resource)
    (hresolve : resolve_approvers db u resource = (some approverId, some approverId))
    (hfreshInst : ∀ i ∈ db.approvalInstances, i.id ≠ freshId)
    (hfreshSteps : ∀ s ∈ db.approvalSteps, s.instanceId ≠ freshId)
    (hfreshStepIds : ∀ s ∈ db.approvalSteps, s.id ≠ freshId + 1) :
    create_approval_for_actuals db u actual freshId =
      .ok (c4Db db u actual freshId approverId, c4Inst u actual freshId) ∧
    (c4Inst u actual freshId).status = .pending ∧
    steps_of (c4Db db u actual freshId approverId) (c4Inst u actual freshId).id =
      [c4RoStep freshId approverId, c4DirStep freshId approverId] ∧
    (c4RoStep freshId approverId).stepOrder = 1 ∧
    (c4RoStep freshId approverId).stepName = "RO" ∧
    (c4RoStep freshId approverId).status = .pending ∧
    (c4RoStep freshId approverId).approverId = some approverId ∧
    (c4DirStep freshId approverId).stepOrder = 2 ∧
    (c4DirStep freshId approverId).stepName = "Director" ∧
    (c4DirStep freshId approverId).status = .skipped ∧
    (∀ (u2 : CurrentUser) (actor : User) (comment : Option String) (actionId now : Nat),
      u2.tenantId = u.tenantId →
      approvals_get_user (c4Db db u actual freshId approverId) u2 = some actor →
      can_user_action_step actor (c4RoStep freshId approverId) = true →
      ((approve_step (c4Db db u actual freshId approverId) u2
          (c4Inst u actual freshId).id (c4RoStep freshId approverId).id
          comment actionId now).toOption.map
        fun r => r.2.status) = some .approved) := by
  have hstepsOf :
      steps_of (c4Db db u actual freshId approverId) freshId =
        [c4RoStep freshId approverId, c4DirStep freshId approverId] := by
    unfold steps_of c4Db
    dsimp only
    rw [List.filter_append]
    rw [List.filter_eq_nil_iff.mpr fun s hs => by simp [hfreshSteps s hs]]
    simp [c4RoStep, c4DirStep]
  refine ⟨?_, rfl, hstepsOf, rfl, rfl, rfl, rfl, rfl, rfl, rfl, ?_⟩
  · unfold create_approval_for_actuals
    rw [hres]
    simp [hresolve, c4Db, c4Inst, c4RoStep, c4DirStep]
  · intro u2 actor comment actionId now htenant huser hcan
    have hinstFind :
        ((c4Db db u actual freshId approverId).approvalInstances.find? fun i =>
            i.id == (c4Inst u actual freshId).id && i.tenantId == u2.tenantId) =
          some (c4Inst u actual freshId) := by
      unfold c4Db
      dsimp only
      rw [List.find?_append]
      rw [List.find?_eq_none.mpr fun i hi => by simp [c4Inst, hfreshInst i hi]]
      simp [c4Inst, htenant]
    have hstepFind :
        ((c4Db db u actual freshId approverId).approvalSteps.find? fun s =>
            s.id == (c4RoStep freshId approverId).id &&
            s.instanceId == (c4Inst u actual freshId).id) =
          some (c4RoStep freshId approverId) := by
      unfold c4Db
      dsimp only
      rw [List.find?_append]
      rw [List.find?_eq_none.mpr fun s hs => by simp [c4RoStep, c4Inst, hfreshStepIds s hs]]
      simp [c4RoStep, c4Inst]
    have hcur :
        get_current_step (c4Db db u actual freshId approverId) (c4Inst u actual freshId).id =
          some (c4RoStep freshId approverId) := by
      unfold get_current_step
      rw [show (c4Inst u actual freshId).id = freshId from rfl, hstepsOf]
      simp [sortByOrder, insertByOrder, c4RoStep, c4DirStep]
    unfold approve_step
    rw [hinstFind, hstepFind, huser, hcur]
    simp only [c4RoStep] at hcan
    simp only [c4Inst, c4RoStep, c4DirStep, bne_self_eq_false, Bool.false_eq_true,
      if_false, hcan, Bool.not_true, Except.toOption, Option.map_some]
    split
    · rfl
    · rename_i hnot
      exfalso
      apply hnot
      unfold steps_of
      dsimp only
      have hmapdb : List.map
          (fun s => if (s.id == freshId + 1) = true then
              { id := freshId + 1, instanceId := freshId, stepOrder := 1, stepName := "RO",
                approverId := some approverId, status := StepStatus.approved,
                actionedAt := some now, actionedBy := some u2.objectId, comment := comment }
            else s) db.approvalSteps = db.approvalSteps :=
        (List.map_congr_left fun s hs => by
          simp [hfreshStepIds s hs]).trans (List.map_id _)
      rw [show (c4Db db u actual freshId approverId).approvalSteps =
          db.approvalSteps ++ [c4RoStep freshId approverId, c4DirStep freshId approverId]
          from rfl]
      rw [List.map_append, hmapdb, List.filter_append, List.all_append]
      rw [List.filter_eq_nil_iff.mpr fun s hs => by simp [hfreshSteps s hs]]
      have hne : ((freshId + 2 == freshId + 1) : Bool) = false := by
        rw [beq_eq_false_iff_ne]
        omega
      simp [c4RoStep, c4DirStep, hne]

/-- A database where resource 1's cost-center owner (user 7) is also
the department's Director. -/
def c4DemoDb : Db :=
  { emptyDb with
      users := [{ id := 7, tenantId := 1, objectId := 70, email := "boss",
                  displayName := "Boss", role := .DIRECTOR, departmentId := some 1,
                  costCenterId := none, isActive := true }],
      departments := [{ id := 1, tenantId := 1, name := "Dept" }],
      costCenters := [{ id := 1, tenantId := 1, departmentId := 1, name := "CC",
                        roUserId := some 7 }],
      resources := [{ id := 1, tenantId := 1, userId := none, costCenterId := 1,
                      displayName := "Res" }] }

/-- The signed actual line of the C4 scenario. -/
def c4DemoActual : ActualLine :=
  { id := 10, tenantId := 1, periodId := 1, resourceId := 1, projectId := 1,
    year := 2026, month := 1, actualFtePercent := 50, plannedFtePercent := none,
    employeeSignedAt := some 5, employeeSignedBy := some 2, isProxySigned := false,
    proxySignReason := none, createdBy := 2 }

/-- C4 witness: in the concrete scenario the instance is created with
RO pending and Director skipped, and a single approval of the RO step
by user 7 moves the instance to APPROVED. -/
theorem c4_shared_approver_degenerates_to_single_step_witness :
    create_approval_for_actuals c4DemoDb ⟨1, 2, .EMPLOYEE⟩ c4DemoActual 100 =
      .ok (c4Db c4DemoDb ⟨1, 2, .EMPLOYEE⟩ c4DemoActual 100 7,
        c4Inst ⟨1, 2, .EMPLOYEE⟩ c4DemoActual 100) ∧
    (c4RoStep 100 7).status = .pending ∧
    (c4DirStep 100 7).status = .skipped ∧
    ((approve_step (c4Db c4DemoDb ⟨1, 2, .EMPLOYEE⟩ c4DemoActual 100 7)
        ⟨1, 70, .DIRECTOR⟩ 100 101 none 900 901).toOption.map
      fun r => r.2.status) = some .approved := by
  have h := c4_shared_approver_degenerates_to_single_step c4DemoDb ⟨1, 2, .EMPLOYEE⟩
    c4DemoActual 100
    { id := 1, tenantId := 1, userId := none, costCenterId := 1, displayName := "Res" }
    7 rfl rfl (by simp [c4DemoDb, emptyDb]) (by simp [c4DemoDb, emptyDb])
    (by simp [c4DemoDb, emptyDb])
  refine ⟨h.1, rfl, rfl, ?_⟩
  exact h.2.2.2.2.2.2.2.2.2.2 ⟨1, 70, .DIRECTOR⟩
    { id := 7, tenantId := 1, objectId := 70, email := "boss", displayName := "Boss",
      role := .DIRECTOR, departmentId := some 1, costCenterId := none, isActive := true }
    none 900 901 rfl rfl (by decide)
